import Mathlib

/-
Verification development for the go-users-crud-backend read path.

The repository contains two evolution stages of the GET /users/id
coordinator: a leader/follower deduplication variant (src/api.go before the
separator, with the TTL cache of src/unnamed/part_001) and a racing-fetch
variant (src/api.go after the separator).  Both are embedded below.

Modelling conventions:
  timestamps are Nat "time units" (Go time.Time abstracted);
  Go errors are the inductive GoError; a nil Go error is Except.ok or
  Option.none depending on position; Go maps are association lists with
  first-match lookup and overwrite-on-assign; channels are a buffer list
  plus a closed flag, receive drains the buffer first and yields the zero
  value once the channel is closed and drained, exactly as in Go.
-/

set_option autoImplicit false

/-- User mirrors the User struct of src/unnamed/part_001 (id, firstName,
lastName, createdAt), with createdAt as an abstract Nat timestamp. -/
structure User where
  id : String
  firstName : String
  lastName : String
  createdAt : Nat
deriving Repr, DecidableEq

/-- Zero value of the Go User struct. -/
def emptyUser : User := { id := "", firstName := "", lastName := "", createdAt := 0 }

/-- GoError enumerates the error values the read path distinguishes:
ErrCacheMiss, sql.ErrNoRows, context.DeadlineExceeded, context.Canceled,
a unique-constraint violation from the database driver, and any other
backend failure carrying its message. -/
inductive GoError where
  | cacheMiss
  | noRows
  | deadlineExceeded
  | canceled
  | uniqueViolation
  | storeFailure (msg : String)
deriving Repr, DecidableEq

/-- True exactly for the two errors matched by
errors.Is(err, context.DeadlineExceeded) or errors.Is(err, context.Canceled)
in the handlers. -/
def GoError.isCtxErr : GoError → Bool
  | .deadlineExceeded => true
  | .canceled => true
  | _ => false

/-- Go Error() text of each error value, used by the racing-variant handler
when it interpolates errors into response bodies. -/
def errorText : GoError → String
  | .cacheMiss => "cache miss"
  | .noRows => "sql: no rows in result set"
  | .deadlineExceeded => "context deadline exceeded"
  | .canceled => "context canceled"
  | .uniqueViolation => "duplicate key value violates unique constraint"
  | .storeFailure msg => msg

/-- Substring test on strings, via infix test on the character lists. -/
def strContains (s sub : String) : Bool :=
  decide (sub.data <:+: s.data)

instance : DecidableEq (Except GoError User) := fun a b =>
  match a, b with
  | .ok x, .ok y =>
      if h : x = y then .isTrue (by rw [h]) else .isFalse (by simp [h])
  | .error x, .error y =>
      if h : x = y then .isTrue (by rw [h]) else .isFalse (by simp [h])
  | .ok _, .error _ => .isFalse (by simp)
  | .error _, .ok _ => .isFalse (by simp)

/-- cacheEntry mirrors the cacheEntry struct of src/unnamed/part_001. -/
structure cacheEntry where
  user : User
  expiresAt : Nat
deriving Repr, DecidableEq

/-- The cache map of the api struct: Go map from id to cacheEntry,
modelled as an association list with first-match lookup. -/
abbrev Cache := List (String × cacheEntry)

/-- Go map read cache-id. -/
def cacheLookup (c : Cache) (id : String) : Option cacheEntry :=
  match c.find? (fun p => p.1 == id) with
  | some p => some p.2
  | none => none

/-- Go map delete(cache, id). -/
def cacheErase (c : Cache) (id : String) : Cache :=
  c.filter (fun p => p.1 != id)

/-- Go map assignment cache-id := e (overwrites any previous binding). -/
def cacheInsert (c : Cache) (id : String) (e : cacheEntry) : Cache :=
  (id, e) :: cacheErase c id

/-- getUserFromCache from src/unnamed/part_001 lines 56-74: read the entry
under RLock; absent key is a cache miss; a present entry with
time.Now().After(expiresAt) (strictly later) is evicted and reported as a
miss; otherwise the entry's user is returned.  Returns the result and the
cache state after the call. -/
def getUserFromCache (c : Cache) (now : Nat) (id : String) :
    Except GoError User × Cache :=
  match cacheLookup c id with
  | none => (Except.error GoError.cacheMiss, c)
  | some entry =>
      if now > entry.expiresAt then
        (Except.error GoError.cacheMiss, cacheErase c id)
      else
        (Except.ok entry.user, c)

/-- setUserCache from src/unnamed/part_001 lines 77-84: store the user with
expiresAt = now + ttl, overwriting any previous entry. -/
def setUserCache (c : Cache) (now : Nat) (id : String) (u : User) (ttl : Nat) : Cache :=
  cacheInsert c id { user := u, expiresAt := now + ttl }

/-- invalidateUserCache from src/unnamed/part_001 lines 87-91: delete the
entry for id (idempotent). -/
def invalidateUserCache (c : Cache) (id : String) : Cache :=
  cacheErase c id

/-- fetchResult mirrors the fetchResult struct: the leader's outcome, with
err = none standing for a nil Go error. -/
structure fetchResult where
  user : User
  err : Option GoError
deriving Repr, DecidableEq

/-- A Go channel of fetchResult: buffered values plus a closed flag. -/
structure Chan where
  buf : List fetchResult
  closed : Bool
deriving Repr, DecidableEq

/-- make(chan fetchResult, 1). -/
def Chan.new : Chan := { buf := [], closed := false }

/-- Channel send: appends to the buffer (the dedupe code sends exactly once
into a capacity-1 channel, so the buffer never overflows). -/
def Chan.send (c : Chan) (v : fetchResult) : Chan := { c with buf := c.buf ++ [v] }

/-- close(ch): closing does not discard buffered values. -/
def Chan.close (c : Chan) : Chan := { c with closed := true }

/-- Channel receive as Go performs it: a buffered value is drained first;
once the channel is closed and drained, receive completes immediately with
the zero value of fetchResult; on an open empty channel the receiver blocks
(none). -/
def Chan.recv (c : Chan) : Option (fetchResult × Chan) :=
  match c.buf with
  | v :: rest => some (v, { c with buf := rest })
  | [] => if c.closed then some ({ user := emptyUser, err := none }, c) else none

/-- The inflight map of the api struct: Go map from id to the slot channel. -/
abbrev Inflight := List (String × Chan)

/-- Go map read inflight-id. -/
def inflightLookup (m : Inflight) (id : String) : Option Chan :=
  match m.find? (fun p => p.1 == id) with
  | some p => some p.2
  | none => none

/-- Go map assignment inflight-id := ch. -/
def inflightInsert (m : Inflight) (id : String) (ch : Chan) : Inflight :=
  (id, ch) :: m.filter (fun p => p.1 != id)

/-- Go map delete(inflight, id). -/
def inflightDelete (m : Inflight) (id : String) : Inflight :=
  m.filter (fun p => p.1 != id)

/-- Role of a caller at the dedupe gate. -/
inductive Role where
  | leader
  | follower
deriving Repr, DecidableEq

/-- The inflight gate of getUserByIdDedupe (src/api.go lines 110-130): one
atomic check-and-insert under inflightMu.  If a slot for id exists the
caller is a follower on that slot; otherwise the caller creates the slot
and is the leader. -/
def joinOrLead (m : Inflight) (id : String) : Role × Inflight :=
  match inflightLookup m id with
  | some _ => (Role.follower, m)
  | none => (Role.leader, inflightInsert m id Chan.new)

/-- Serialisation of n same-id callers through the gate, in the order they
acquire inflightMu, all within one leader episode (before the leader's
deferred delete runs).  Returns the role each caller received. -/
def gateRoles (m : Inflight) (id : String) : Nat → List Role × Inflight
  | 0 => ([], m)
  | n + 1 =>
    let r := joinOrLead m id
    let rest := gateRoles r.2 id n
    (r.1 :: rest.1, rest.2)

/-- Number of Durable Store reads issued by callers with the given roles:
each leader performs exactly one getUserById call (src/api.go line 141) and
a follower performs none (lines 115-124 contain no store call). -/
def storeReads (rs : List Role) : Nat := rs.count Role.leader

/-- What a blocked follower observes next: either its channel receive
completes, or its own context deadline fires first (the select at
src/api.go lines 115-124). -/
inductive FollowerEvent where
  | recv
  | ctxDone (e : GoError)
deriving Repr, DecidableEq

/-- The shared mutable state of the api struct relevant to the read path. -/
structure ApiState where
  cache : Cache
  inflight : Inflight
deriving Repr, DecidableEq

/-- Result of one getUserByIdDedupe call: the returned (User, error) pair,
the provenance string, and the shared state after the call. -/
structure DedupeOut where
  res : Except GoError User
  src : String
  state : ApiState
deriving Repr, DecidableEq

/-- getUserByIdDedupe from src/api.go lines 103-154, for a single caller.
The Durable Store call is the store argument (what getUserById would
return under this caller's context); fev resolves the follower's select.
Returns none when the caller would block forever (follower receive on an
open empty channel).  The leader path: insert the slot, fetch, fill the
cache only on success with a 30 time-unit TTL, send the outcome into the
slot, then (deferred) delete the slot and close its channel. -/
def getUserByIdDedupe (st : ApiState) (now : Nat) (id : String)
    (store : Except GoError User) (fev : FollowerEvent) : Option DedupeOut :=
  match getUserFromCache st.cache now id with
  | (Except.ok u, c1) => some ⟨Except.ok u, "cache", ⟨c1, st.inflight⟩⟩
  | (Except.error _, c1) =>
    match inflightLookup st.inflight id with
    | some ch =>
      match fev with
      | FollowerEvent.recv =>
        match ch.recv with
        | none => none
        | some (res, ch2) =>
          let m2 := inflightInsert st.inflight id ch2
          match res.err with
          | none => some ⟨Except.ok res.user, "shared", ⟨c1, m2⟩⟩
          | some e => some ⟨Except.error e, "shared", ⟨c1, m2⟩⟩
      | FollowerEvent.ctxDone e => some ⟨Except.error e, "shared", ⟨c1, st.inflight⟩⟩
    | none =>
      match store with
      | Except.ok u =>
        some ⟨Except.ok u, "db",
          ⟨setUserCache c1 now id u 30,
           inflightDelete (inflightInsert st.inflight id Chan.new) id⟩⟩
      | Except.error e =>
        some ⟨Except.error e, "db",
          ⟨c1, inflightDelete (inflightInsert st.inflight id Chan.new) id⟩⟩

/-- HTTP response abstraction: status, body, and the X-Source header when
the handler sets one. -/
structure HttpResponse where
  status : Nat
  body : String
  xsource : Option String
deriving Repr, DecidableEq

/-- Rendering of the user by json.NewEncoder(w).Encode(u), abstracted to an
injective text form (its exact shape is a collaborator concern). -/
def encodeUser (u : User) : String :=
  "id=" ++ u.id ++ ";firstName=" ++ u.firstName ++ ";lastName=" ++ u.lastName

/-- Error branch of getUserByIdHandler (dedupe variant, src/api.go lines
76-91): deadline/cancel to 504, sql.ErrNoRows to 404, everything else to a
constant 500 body. -/
def dedupeErrorResponse (e : GoError) : HttpResponse :=
  if e.isCtxErr then ⟨504, "request timeout/canceled", none⟩
  else if e = GoError.noRows then ⟨404, "user not found", none⟩
  else ⟨500, "failed to get user", none⟩

/-- getUserByIdHandler of the dedupe variant (src/api.go lines 69-100):
call getUserByIdDedupe, map errors via dedupeErrorResponse, and on success
answer 200 with the encoded user and X-Source set to the provenance. -/
def getUserByIdHandler (st : ApiState) (now : Nat) (id : String)
    (store : Except GoError User) (fev : FollowerEvent) :
    Option (HttpResponse × ApiState) :=
  match getUserByIdDedupe st now id store fev with
  | none => none
  | some out =>
    match out.res with
    | Except.error e => some (dedupeErrorResponse e, out.state)
    | Except.ok u => some (⟨200, encodeUser u, some out.src⟩, out.state)

/-- Leader publication as performed by src/api.go lines 133-148: the result
is sent into the slot channel, and the deferred cleanup closes the channel
(after deleting the slot from the registry). -/
def leaderPublish (ch : Chan) (r : fetchResult) : Chan :=
  Chan.close (Chan.send ch r)

/-- Outcomes observed by two followers that each perform one receive on the
slot channel after the leader has published result r and completed: the
receives are serialised (Go serialises channel operations), in either order
the first drains the single buffered value and the second receives from the
closed, drained channel. -/
def twoFollowerOutcomes (r : fetchResult) : fetchResult × fetchResult :=
  match (leaderPublish Chan.new r).recv with
  | some (v1, ch1) =>
    match ch1.recv with
    | some (v2, _) => (v1, v2)
    | none => (v1, v1)
  | none => (r, r)

/-- One select outcome observed by the racing-variant handler's loop
(src/api.go lines 415-434): either a result arrives on resCh (from the
cache goroutine with src "cache" or the db goroutine with src "db"), or
ctx.Done() fires with the context's error. -/
inductive RaceEvent where
  | res (src : String) (user : User) (err : Option GoError)
  | done (e : GoError)
deriving Repr, DecidableEq

/-- Response of the racing-variant handler, plus whether it called cancel()
to signal the losing attempt before returning. -/
structure RaceOut where
  status : Nat
  body : String
  xsource : Option String
  cancelSignaled : Bool
deriving Repr, DecidableEq

/-- Body text of the both-failed exit of the racing handler
(src/api.go line 437): firstErr is always set when the loop falls through,
so the none case is unreachable. -/
def raceFailBody : Option GoError → String
  | some e => "failed: " ++ errorText e
  | none => "failed: "

/-- The for-loop of the racing-variant getUserByIdHandler (src/api.go lines
414-437): fuel counts remaining iterations (i ranges over 0,1); events
lists the select outcomes in the order the scheduler delivers them; fErr is
the running firstErr variable.  A successful result answers 200 with its
provenance and calls cancel(); a failure is recorded in fErr (overwriting
the previous one) and the loop continues; ctx.Done() answers 504; after two
failures the handler answers 404 with the last recorded error's text.
Returns none when the loop would block (no further select outcome). -/
def raceLoop : Nat → List RaceEvent → Option GoError → Option RaceOut
  | 0, _, fErr =>
      some { status := 404, body := raceFailBody fErr, xsource := none,
             cancelSignaled := false }
  | _ + 1, [], _ => none
  | n + 1, RaceEvent.res src u err :: rest, _ =>
      match err with
      | none => some { status := 200, body := encodeUser u, xsource := some src,
                       cancelSignaled := true }
      | some e => raceLoop n rest (some e)
  | _ + 1, RaceEvent.done e :: _, _ =>
      some { status := 504, body := "timeout: " ++ errorText e, xsource := none,
             cancelSignaled := false }

/-- The racing-variant getUserByIdHandler (src/api.go lines 395-438) after
it has launched the two goroutines: runs the two-iteration select loop over
the delivered events with firstErr initially nil. -/
def racingGetUserByIdHandler (events : List RaceEvent) : Option RaceOut :=
  raceLoop 2 events none

/-- The users table: rows in insertion order (ids are assigned by the
BIGSERIAL column, rendered as id::text by every query in src/sql.go). -/
abbrev Db := List User

/-- The SELECT of getUserById (src/sql.go lines 51-60): the row with the
given id, or sql.ErrNoRows. -/
def dbGetUser (db : Db) (id : String) : Except GoError User :=
  match db.find? (fun u => u.id == id) with
  | some u => Except.ok u
  | none => Except.error GoError.noRows

/-- The DELETE of deleteUserById (src/sql.go lines 63-76): removes the rows
with the given id and reports whether any row was affected. -/
def dbDeleteUser (db : Db) (id : String) : Bool × Db :=
  (db.any (fun u => u.id == id), db.filter (fun u => u.id != id))

/-- COALESCE semantics of the UPDATE in updateUserByID (src/sql.go lines
86-93): a nil parameter keeps the stored column value. -/
def applyPatch (u : User) (fn ln : Option String) : User :=
  { u with firstName := fn.getD u.firstName, lastName := ln.getD u.lastName }

/-- The UPDATE ... RETURNING of updateUserByID (src/sql.go lines 79-107):
patches the row with the given id and returns it, or reports no match
(sql.ErrNoRows mapped to updated = false by the caller). -/
def dbUpdateUser (db : Db) (id : String) (fn ln : Option String) :
    Option User × Db :=
  match db.find? (fun u => u.id == id) with
  | none => (none, db)
  | some u =>
    let u2 := applyPatch u fn ln
    (some u2, db.map (fun v => if v.id == id then u2 else v))

/-- The INSERT of createUser (src/sql.go lines 9-19) against the schema
created by initSchema (src/db.go lines 32-45): UNIQUE(first_name,
last_name) makes an insert of an existing name pair fail with a constraint
violation and leave the table unchanged; otherwise the row is appended with
the next BIGSERIAL id and the current timestamp. -/
def dbCreateUser (db : Db) (nextId now : Nat) (fn ln : String) :
    Except GoError User × Db × Nat :=
  if db.any (fun u => u.firstName == fn && u.lastName == ln) then
    (Except.error GoError.uniqueViolation, db, nextId)
  else
    let u : User := { id := toString nextId, firstName := fn, lastName := ln,
                      createdAt := now }
    (Except.ok u, db ++ [u], nextId + 1)

/-- No two rows of the table share the same (first_name, last_name) pair:
the invariant enforced by the UNIQUE constraint of initSchema. -/
def namesUnique : Db → Bool
  | [] => true
  | u :: rest =>
      !rest.any (fun v => v.firstName == u.firstName && v.lastName == u.lastName)
      && namesUnique rest

/-- strconv.ParseInt(s, 10, 64) as used by updateUserByIdHandler: optional
sign, at least one decimal digit, 64-bit signed range. -/
def parseGoInt (s : String) : Option Int :=
  let core : List Char → Int → Option Int := fun ds sign =>
    if ds = [] then none
    else if ds.all (fun c => c.isDigit) then
      let v : Nat := ds.foldl (fun acc c => acc * 10 + (c.toNat - 48)) 0
      let i : Int := sign * (v : Int)
      if -(2 ^ 63) ≤ i ∧ i ≤ 2 ^ 63 - 1 then some i else none
    else none
  match s.data with
  | '+' :: rest => core rest 1
  | '-' :: rest => core rest (-1)
  | ds => core ds 1

/-- Observable interactions of a write handler with the store and the
cache, in program order. -/
inductive WriteAction where
  | storeDelete (id : String) (deleted : Bool)
  | storeUpdate (id : String) (updated : Bool)
  | cacheInvalidate (id : String)
deriving Repr, DecidableEq

/-- Every cacheInvalidate in the trace is preceded by a successful
(committed) store write of the same id. -/
def invalidatesAfterCommit (committed : List String) : List WriteAction → Bool
  | [] => true
  | WriteAction.storeDelete i true :: rest =>
      invalidatesAfterCommit (i :: committed) rest
  | WriteAction.storeDelete _ false :: rest => invalidatesAfterCommit committed rest
  | WriteAction.storeUpdate i true :: rest =>
      invalidatesAfterCommit (i :: committed) rest
  | WriteAction.storeUpdate _ false :: rest => invalidatesAfterCommit committed rest
  | WriteAction.cacheInvalidate i :: rest =>
      committed.contains i && invalidatesAfterCommit committed rest

/-- deleteUserByIdHandler of the dedupe variant (src/api.go lines 157-181):
run the DELETE (ce models a store-call failure under the request context,
in which case nothing is committed); on success invalidate the cache entry
for the id, strictly after the store call returned; answer 204, 404, 504 or
500 accordingly.  Returns the response, the db and cache states after the
call, and the trace of store/cache interactions. -/
def deleteUserByIdHandler (db : Db) (cache : Cache) (idStr : String)
    (ce : Option GoError) : HttpResponse × Db × Cache × List WriteAction :=
  match ce with
  | some e =>
      if e.isCtxErr then (⟨504, "request timeout/canceled", none⟩, db, cache, [])
      else (⟨500, "failed to delete user", none⟩, db, cache, [])
  | none =>
    match dbDeleteUser db idStr with
    | (false, db2) =>
        (⟨404, "user not found", none⟩, db2, cache,
         [WriteAction.storeDelete idStr false])
    | (true, db2) =>
        (⟨204, "", none⟩, db2, invalidateUserCache cache idStr,
         [WriteAction.storeDelete idStr true, WriteAction.cacheInvalidate idStr])

/-- updateUserByIdHandler of the dedupe variant (src/api.go lines 221-280):
validate the id and the patch, run the UPDATE (ce as above), and on a
committed update invalidate the cache entry for the updated row's id,
strictly after the store call returned. -/
def updateUserByIdHandler (db : Db) (cache : Cache) (idStr : String)
    (pf pl : Option String) (ce : Option GoError) :
    HttpResponse × Db × Cache × List WriteAction :=
  match parseGoInt idStr with
  | none => (⟨400, "invalid id", none⟩, db, cache, [])
  | some i =>
    if i ≤ 0 then (⟨400, "invalid id", none⟩, db, cache, [])
    else if pf.isNone && pl.isNone then
      (⟨400, "no fields to update", none⟩, db, cache, [])
    else if pf = some "" then
      (⟨400, "firstName cannot be empty", none⟩, db, cache, [])
    else if pl = some "" then
      (⟨400, "lastName cannot be empty", none⟩, db, cache, [])
    else
      match ce with
      | some e =>
          if e.isCtxErr then
            (⟨504, "request timeout/canceled", none⟩, db, cache, [])
          else (⟨500, "failed to update user", none⟩, db, cache, [])
      | none =>
        match dbUpdateUser db (toString i) pf pl with
        | (none, db2) =>
            (⟨404, "user not found", none⟩, db2, cache,
             [WriteAction.storeUpdate (toString i) false])
        | (some u, db2) =>
            (⟨200, encodeUser u, none⟩, db2, invalidateUserCache cache u.id,
             [WriteAction.storeUpdate (toString i) true,
              WriteAction.cacheInvalidate u.id])

/-- createUserHandler of the dedupe variant (src/api.go lines 184-218),
with the payload already decoded: empty names are rejected with 400; a
store error maps to 504 (context) or 500 (anything else, including a
unique-constraint violation) with a constant body. -/
def createUserHandler (db : Db) (nextId now : Nat) (fn ln : String) :
    HttpResponse × Db × Nat :=
  if fn = "" || ln = "" then
    (⟨400, "firstName and lastName are required", none⟩, db, nextId)
  else
    match dbCreateUser db nextId now fn ln with
    | (Except.error e, db2, nid) =>
        if e.isCtxErr then (⟨504, "request timeout/canceled", none⟩, db2, nid)
        else (⟨500, "failed to create user", none⟩, db2, nid)
    | (Except.ok u, db2, nid) => (⟨201, encodeUser u, none⟩, db2, nid)

/-- Concrete user for witnesses and counterexamples. -/
def adaUser : User :=
  { id := "1", firstName := "Ada", lastName := "Lovelace", createdAt := 0 }

/-- Whether the cache check at the top of getUserByIdDedupe succeeded, that
is, an unexpired entry was served. -/
def cacheHit (r : Except GoError User) : Bool :=
  match r with
  | Except.ok _ => true
  | Except.error _ => false

theorem lookupNone_filter {beta : Type} (l : List (String × beta)) (id : String)
    (h : l.find? (fun p => p.1 == id) = none) :
    l.filter (fun p => p.1 != id) = l := by
  rw [List.filter_eq_self]
  intro a ha
  have hx := List.find?_eq_none.mp h a ha
  simp only [bne, Bool.not_eq_true'] at *
  exact Bool.not_eq_true _ ▸ (by simpa using hx)

theorem cacheLookup_erase_self (c : Cache) (id : String) :
    cacheLookup (cacheErase c id) id = none := by
  have : (cacheErase c id).find? (fun p => p.1 == id) = none := by
    rw [List.find?_eq_none]
    intro x hx
    have hk := (List.mem_filter.mp hx).2
    simp only [bne, Bool.not_eq_true'] at hk
    simp [hk]
  simp [cacheLookup, this]

theorem inflightLookup_insert (m : Inflight) (id : String) (ch : Chan) :
    inflightLookup (inflightInsert m id ch) id = some ch := by
  simp [inflightLookup, inflightInsert, List.find?_cons]

theorem inflightDelete_insert (m : Inflight) (id : String) (ch : Chan)
    (h : inflightLookup m id = none) :
    inflightDelete (inflightInsert m id ch) id = m := by
  have hf : m.find? (fun p => p.1 == id) = none := by
    unfold inflightLookup at h
    cases hx : m.find? (fun p => p.1 == id) with
    | none => rfl
    | some p => rw [hx] at h; simp at h
  unfold inflightDelete inflightInsert
  rw [List.filter_cons]
  simp only [bne_self_eq_false, Bool.false_eq_true, if_false, List.filter_filter,
    Bool.and_self]
  exact lookupNone_filter m id hf

theorem getUserFromCache_absent (c : Cache) (now : Nat) (id : String)
    (hc : cacheLookup c id = none) :
    getUserFromCache c now id = (Except.error GoError.cacheMiss, c) := by
  simp [getUserFromCache, hc]

theorem gateRoles_all_followers (m : Inflight) (id : String) (ch : Chan)
    (h : inflightLookup m id = some ch) :
    ∀ n : Nat, gateRoles m id n = (List.replicate n Role.follower, m) := by
  intro n
  induction n with
  | zero => simp [gateRoles]
  | succ n ih => simp [gateRoles, joinOrLead, h, ih, List.replicate_succ]

/-- Claim C1: in the leader/follower dedupe variant, for every set of N
concurrent callers of getUserByIdDedupe with the same id whose cache lookup
misses, exactly one caller (the first through the inflight gate, the
leader) invokes the Durable Store read getUserById; every other caller is
registered as a follower on the existing in-flight slot and issues no store
read, because the gate is a single atomic check-and-insert on the inflight
map under inflightMu.  The N gate passages are serialised by inflightMu;
gateRoles is that serialisation within one leader episode. -/
theorem C1_at_most_one_fetch (m : Inflight) (id : String) (n : Nat)
    (h : inflightLookup m id = none) :
    (gateRoles m id (n + 1)).1 = Role.leader :: List.replicate n Role.follower ∧
    storeReads (gateRoles m id (n + 1)).1 = 1 := by
  have h1 : joinOrLead m id = (Role.leader, inflightInsert m id Chan.new) := by
    simp [joinOrLead, h]
  have h2 := gateRoles_all_followers (inflightInsert m id Chan.new) id Chan.new
    (inflightLookup_insert m id Chan.new) n
  have hroles : (gateRoles m id (n + 1)).1 =
      Role.leader :: List.replicate n Role.follower := by
    simp [gateRoles, h1, h2]
  refine ⟨hroles, ?_⟩
  rw [hroles]
  simp [storeReads, List.count_cons, List.count_replicate]

/-- Witness for C1: three concurrent cache-missed callers on an empty
registry produce one leader, two followers, and exactly one store read. -/
theorem C1_witness :
    (gateRoles [] "1" 3).1 = Role.leader :: List.replicate 2 Role.follower ∧
    storeReads (gateRoles [] "1" 3).1 = 1 :=
  C1_at_most_one_fetch [] "1" 2 rfl

/-- Claim C3 counterexample: at a time exactly equal to the entry's
expiresAt, getUserFromCache still returns the cached user and does not
evict, because the code tests time.Now().After(expiresAt), which is a
strict comparison; the claim asserts a miss and eviction at or after
expiresAt. -/
theorem C3_counterexample :
    (getUserFromCache [("1", { user := adaUser, expiresAt := 5 })] 5 "1").1 =
      Except.ok adaUser ∧
    (getUserFromCache [("1", { user := adaUser, expiresAt := 5 })] 5 "1").2 =
      [("1", { user := adaUser, expiresAt := 5 })] := by
  exact ⟨rfl, rfl⟩

/-- Claim C3 (amended): setUserCache(k, v, ttl) followed by
getUserFromCache(k) at a time at or before the entry's expiresAt = now +
ttl returns v with no error; a getUserFromCache(k) strictly after expiresAt
returns a cache-miss error and removes the entry from the cache map (read
triggers eviction). -/
theorem C3_cache_ttl (c : Cache) (now now2 ttl : Nat) (k : String) (v : User) :
    (now2 ≤ now + ttl →
      (getUserFromCache (setUserCache c now k v ttl) now2 k).1 = Except.ok v) ∧
    (now + ttl < now2 →
      (getUserFromCache (setUserCache c now k v ttl) now2 k).1 =
        Except.error GoError.cacheMiss ∧
      cacheLookup (getUserFromCache (setUserCache c now k v ttl) now2 k).2 k =
        none) := by
  have hl : cacheLookup (setUserCache c now k v ttl) k =
      some { user := v, expiresAt := now + ttl } := by
    simp [setUserCache, cacheInsert, cacheLookup, List.find?_cons]
  constructor
  · intro h
    simp [getUserFromCache, hl, Nat.not_lt.mpr h]
  · intro h
    simp [getUserFromCache, hl, h, cacheLookup_erase_self]

/-- Witness for C3: a put at time 0 with ttl 30 is a hit at time 10 and a
miss at time 31. -/
theorem C3_witness :
    (getUserFromCache (setUserCache [] 0 "1" adaUser 30) 10 "1").1 =
      Except.ok adaUser ∧
    (getUserFromCache (setUserCache [] 0 "1" adaUser 30) 31 "1").1 =
      Except.error GoError.cacheMiss :=
  ⟨(C3_cache_ttl [] 0 10 30 "1" adaUser).1 (by decide),
   ((C3_cache_ttl [] 0 31 30 "1" adaUser).2 (by decide)).1⟩

/-- Claim C4: in the dedupe variant, the leader writes to the cache
(setUserCache) only when the store read returns without error; for every
erroneous outcome (sql.ErrNoRows, deadline expiry, cancellation, or any
other store failure) the cache is left unchanged: the error result is never
cached. -/
theorem C4_error_not_cached (st : ApiState) (now : Nat) (id : String)
    (fev : FollowerEvent)
    (hc : cacheLookup st.cache id = none)
    (hm : inflightLookup st.inflight id = none) :
    (∀ e : GoError, getUserByIdDedupe st now id (Except.error e) fev =
      some ⟨Except.error e, "db", ⟨st.cache, st.inflight⟩⟩) ∧
    (∀ u : User, getUserByIdDedupe st now id (Except.ok u) fev =
      some ⟨Except.ok u, "db", ⟨setUserCache st.cache now id u 30, st.inflight⟩⟩) := by
  have hcr := getUserFromCache_absent st.cache now id hc
  have hdel := inflightDelete_insert st.inflight id Chan.new hm
  constructor
  · intro e; simp [getUserByIdDedupe, hcr, hm, hdel]
  · intro u; simp [getUserByIdDedupe, hcr, hm, hdel]

/-- Witness for C4: a leader whose store read fails with a deadline error
leaves the empty cache empty; one whose read succeeds fills it. -/
theorem C4_witness :
    getUserByIdDedupe ⟨[], []⟩ 0 "1" (Except.error GoError.deadlineExceeded)
        FollowerEvent.recv =
      some ⟨Except.error GoError.deadlineExceeded, "db", ⟨[], []⟩⟩ ∧
    getUserByIdDedupe ⟨[], []⟩ 0 "1" (Except.ok adaUser) FollowerEvent.recv =
      some ⟨Except.ok adaUser, "db", ⟨setUserCache [] 0 "1" adaUser 30, []⟩⟩ :=
  ⟨(C4_error_not_cached ⟨[], []⟩ 0 "1" FollowerEvent.recv rfl rfl).1
      GoError.deadlineExceeded,
   (C4_error_not_cached ⟨[], []⟩ 0 "1" FollowerEvent.recv rfl rfl).2 adaUser⟩

/-- Claim C9: in the dedupe variant, a follower whose own context deadline
elapses before the leader publishes returns a timeout outcome (ctx.Err())
immediately with provenance "shared", and this path performs no mutation of
the in-flight registry or the cache (the state after the call is the state
before it), so the leader's fetch and its eventual publication to other
followers are unaffected. -/
theorem C9_follower_timeout (st : ApiState) (now : Nat) (id : String)
    (store : Except GoError User) (e : GoError) (ch : Chan)
    (hc : cacheLookup st.cache id = none)
    (hm : inflightLookup st.inflight id = some ch) :
    getUserByIdDedupe st now id store (FollowerEvent.ctxDone e) =
      some ⟨Except.error e, "shared", st⟩ := by
  have hcr := getUserFromCache_absent st.cache now id hc
  simp [getUserByIdDedupe, hcr, hm]

/-- Witness for C9: a follower timing out on an in-flight slot for id 1
returns the deadline error and leaves the state untouched. -/
theorem C9_witness :
    getUserByIdDedupe ⟨[], [("1", Chan.new)]⟩ 0 "1" (Except.ok adaUser)
        (FollowerEvent.ctxDone GoError.deadlineExceeded) =
      some ⟨Except.error GoError.deadlineExceeded, "shared", ⟨[], [("1", Chan.new)]⟩⟩ :=
  C9_follower_timeout ⟨[], [("1", Chan.new)]⟩ 0 "1" (Except.ok adaUser)
    GoError.deadlineExceeded Chan.new rfl rfl

/-- Claim C7: every result of getUserByIdDedupe carries exactly one of the
three provenance labels, correct for its path: "cache" if and only if it
was served from an unexpired cache entry, "shared" if and only if the
caller was a follower on the in-flight slot, and "db" if and only if the
caller was the leader that performed the store read; on success the handler
surfaces the label in the X-Source response header. -/
theorem C7_provenance (st : ApiState) (now : Nat) (id : String)
    (store : Except GoError User) (fev : FollowerEvent) (out : DedupeOut)
    (h : getUserByIdDedupe st now id store fev = some out) :
    (out.src = "cache" ∨ out.src = "shared" ∨ out.src = "db") ∧
    (out.src = "cache" ↔ cacheHit (getUserFromCache st.cache now id).1 = true) ∧
    (out.src = "shared" ↔ (cacheHit (getUserFromCache st.cache now id).1 = false ∧
      (inflightLookup st.inflight id).isSome = true)) ∧
    (out.src = "db" ↔ (cacheHit (getUserFromCache st.cache now id).1 = false ∧
      inflightLookup st.inflight id = none)) ∧
    (∀ u, out.res = Except.ok u →
      getUserByIdHandler st now id store fev =
        some (⟨200, encodeUser u, some out.src⟩, out.state)) := by
  have hh : ∀ u, out.res = Except.ok u →
      getUserByIdHandler st now id store fev =
        some (⟨200, encodeUser u, some out.src⟩, out.state) := by
    intro u hu
    simp [getUserByIdHandler, h, hu]
  rcases hcr : getUserFromCache st.cache now id with ⟨cres, c1⟩
  rcases cres with e0 | u0
  · rcases hm : inflightLookup st.inflight id with _ | ch
    · rcases store with e1 | u1 <;>
        (simp only [getUserByIdDedupe, hcr, hm] at h;
         rw [Option.some.injEq] at h; subst h;
         exact ⟨by simp, by simp [cacheHit],
           by simp [cacheHit], by simp [cacheHit], hh⟩)
    · rcases fev with _ | e2
      · rcases hr : ch.recv with _ | ⟨res, ch2⟩
        · simp only [getUserByIdDedupe, hcr, hm, hr] at h
          exact Option.noConfusion h
        · rcases hre : res.err with _ | e3 <;>
            (simp only [getUserByIdDedupe, hcr, hm, hr, hre] at h;
             rw [Option.some.injEq] at h; subst h;
             exact ⟨by simp, by simp [cacheHit],
               by simp [cacheHit], by simp [cacheHit], hh⟩)
      · simp only [getUserByIdDedupe, hcr, hm] at h
        rw [Option.some.injEq] at h; subst h
        exact ⟨by simp, by simp [cacheHit],
          by simp [cacheHit], by simp [cacheHit], hh⟩
  · simp only [getUserByIdDedupe, hcr] at h
    rw [Option.some.injEq] at h; subst h
    exact ⟨by simp, by simp [cacheHit],
      by simp [cacheHit], by simp [cacheHit], hh⟩

/-- Witness for C7: a cache hit for id 1 is answered 200 with X-Source set
to cache. -/
theorem C7_witness :
    getUserByIdHandler ⟨[("1", { user := adaUser, expiresAt := 100 })], []⟩ 0 "1"
        (Except.ok adaUser) FollowerEvent.recv =
      some (⟨200, encodeUser adaUser, some "cache"⟩,
            ⟨[("1", { user := adaUser, expiresAt := 100 })], []⟩) :=
  (C7_provenance ⟨[("1", { user := adaUser, expiresAt := 100 })], []⟩ 0 "1"
    (Except.ok adaUser) FollowerEvent.recv
    ⟨Except.ok adaUser, "cache", ⟨[("1", { user := adaUser, expiresAt := 100 })], []⟩⟩
    rfl).2.2.2.2 adaUser rfl

/-- Claim C5 counterexample: the racing-variant getUserByIdHandler
(src/api.go lines 395-438), when the cache attempt misses and the store
attempt fails with an internal store error, answers 404 — not the claimed
500 — and its body carries the internal error text verbatim, which the
claim says never happens. -/
theorem C5_counterexample :
    racingGetUserByIdHandler
        [RaceEvent.res "cache" emptyUser (some GoError.cacheMiss),
         RaceEvent.res "db" emptyUser (some (GoError.storeFailure "pg down"))] =
      some ⟨404, "failed: pg down", none, false⟩ ∧
    strContains "failed: pg down" "pg down" = true := by
  exact ⟨rfl, by decide⟩

/-- Claim C5 (amended): in the dedupe variant, getUserByIdHandler maps the
coordinator's error kind to a distinguishable status — sql.ErrNoRows to
404, deadline expiry or cancellation to 504, any other store failure to 500
— and the 500 body is the constant text "failed to get user", independent
of the internal error; the racing-variant handler does not satisfy this: it
answers a both-attempts-failed request with 404 and includes the error
text. -/
theorem C5_dedupe_error_mapping (st : ApiState) (now : Nat) (id : String)
    (store : Except GoError User) (fev : FollowerEvent) (out : DedupeOut)
    (e : GoError)
    (h : getUserByIdDedupe st now id store fev = some out)
    (he : out.res = Except.error e) :
    getUserByIdHandler st now id store fev = some (dedupeErrorResponse e, out.state) ∧
    (dedupeErrorResponse GoError.noRows).status = 404 ∧
    (dedupeErrorResponse GoError.deadlineExceeded).status = 504 ∧
    (dedupeErrorResponse GoError.canceled).status = 504 ∧
    (∀ msg, dedupeErrorResponse (GoError.storeFailure msg) =
      ⟨500, "failed to get user", none⟩) := by
  refine ⟨?_, rfl, rfl, rfl, fun msg => rfl⟩
  simp [getUserByIdHandler, h, he]

/-- Witness for C5: a leader whose store read fails with an internal error
is answered by the dedupe handler with the constant 500 response. -/
theorem C5_witness :
    getUserByIdHandler ⟨[], []⟩ 0 "1"
        (Except.error (GoError.storeFailure "boom")) FollowerEvent.recv =
      some (dedupeErrorResponse (GoError.storeFailure "boom"), ⟨[], []⟩) :=
  (C5_dedupe_error_mapping ⟨[], []⟩ 0 "1"
    (Except.error (GoError.storeFailure "boom")) FollowerEvent.recv
    ⟨Except.error (GoError.storeFailure "boom"), "db", ⟨[], []⟩⟩
    (GoError.storeFailure "boom") rfl rfl).1

/-- Claim C8: in the racing-fetch variant of GET /users/id, the first of
the two concurrent attempts (cache, store) to succeed wins: its result is
answered 200 with its provenance, cancel() is signaled to the loser, and
the loser's result is discarded (the response does not depend on the
remaining events); if both attempts fail before the deadline the handler
returns the later-observed of the two failures; if the deadline elapses
before any success a timeout outcome (504) is returned. -/
theorem C8_racing_first_success_wins :
    (∀ (src : String) (u : User) (rest : List RaceEvent),
      racingGetUserByIdHandler (RaceEvent.res src u none :: rest) =
        some ⟨200, encodeUser u, some src, true⟩) ∧
    (∀ (s1 s2 : String) (u1 u2 : User) (e1 : GoError) (rest : List RaceEvent),
      racingGetUserByIdHandler
          (RaceEvent.res s1 u1 (some e1) :: RaceEvent.res s2 u2 none :: rest) =
        some ⟨200, encodeUser u2, some s2, true⟩) ∧
    (∀ (s1 s2 : String) (u1 u2 : User) (e1 e2 : GoError) (rest : List RaceEvent),
      racingGetUserByIdHandler
          (RaceEvent.res s1 u1 (some e1) :: RaceEvent.res s2 u2 (some e2) :: rest) =
        some ⟨404, "failed: " ++ errorText e2, none, false⟩) ∧
    (∀ (e : GoError) (rest : List RaceEvent),
      racingGetUserByIdHandler (RaceEvent.done e :: rest) =
        some ⟨504, "timeout: " ++ errorText e, none, false⟩) ∧
    (∀ (s1 : String) (u1 : User) (e1 e : GoError) (rest : List RaceEvent),
      racingGetUserByIdHandler
          (RaceEvent.res s1 u1 (some e1) :: RaceEvent.done e :: rest) =
        some ⟨504, "timeout: " ++ errorText e, none, false⟩) := by
  refine ⟨?_, ?_, ?_, ?_, ?_⟩ <;> (intros; rfl)

/-- Claim C2 (the code evaluated at the failing input): after a leader
episode for id 1 that fetched adaUser successfully and published it into
the capacity-1 slot channel before closing it, of two followers receiving
on that slot the first obtains the leader's outcome but the second obtains
the zero value of fetchResult — an empty User with a nil error — from the
closed channel, contradicting the claim that every subscribed follower
receives the leader's published outcome. -/
theorem C2_second_follower_gets_zero :
    (twoFollowerOutcomes { user := adaUser, err := none }).1 =
      { user := adaUser, err := none } ∧
    (twoFollowerOutcomes { user := adaUser, err := none }).2 =
      { user := emptyUser, err := none } ∧
    (twoFollowerOutcomes { user := adaUser, err := none }).2 ≠
      { user := adaUser, err := none } := by
  refine ⟨rfl, rfl, ?_⟩
  decide

theorem dbFind_erase_none (db : Db) (id : String) :
    (db.filter (fun u => u.id != id)).find? (fun u => u.id == id) = none := by
  rw [List.find?_eq_none]
  intro x hx
  have hk := (List.mem_filter.mp hx).2
  simp only [bne, Bool.not_eq_true'] at hk
  simp [hk]

theorem find?_id_eq (db : Db) (t : String) (u0 : User)
    (hf : db.find? (fun v => v.id == t) = some u0) : u0.id = t := by
  have hp := List.find?_some hf
  simpa [beq_iff_eq] using hp

theorem dbUpdate_find (db : Db) (t : String) (u2 : User) (h2 : u2.id = t) :
    ∀ u0, db.find? (fun v => v.id == t) = some u0 →
      (db.map (fun v => if v.id == t then u2 else v)).find? (fun v => v.id == t) =
        some u2 := by
  induction db with
  | nil => intro u0 h; simp at h
  | cons w rest ih =>
    intro u0 h
    by_cases hw : w.id = t
    · simp [List.find?_cons, hw, h2]
    · have hwb : (w.id == t) = false := by simp [hw]
      simp only [List.find?_cons, hwb] at h
      simp only [List.map_cons, hwb, Bool.false_eq_true, if_false, List.find?_cons]
      exact ih u0 h

/-- Claim C6: for every successful update (PATCH) or delete (DELETE) of a
user id, the handler calls invalidateUserCache strictly after the
successful store call returns (every cacheInvalidate in the interaction
trace is preceded by a committed store write of that id), so a subsequent
get on the same key cannot return the pre-update value once the write has
been acknowledged: the cache entry for the key is gone and the database row
is the patched one, so the subsequent read returns the updated user. -/
theorem C6_commit_then_invalidate (db : Db) (cache : Cache) (idStr : String)
    (pf pl : Option String) (ce : Option GoError) (now : Nat)
    (fev : FollowerEvent) :
    invalidatesAfterCommit [] (deleteUserByIdHandler db cache idStr ce).2.2.2 = true ∧
    invalidatesAfterCommit [] (updateUserByIdHandler db cache idStr pf pl ce).2.2.2 = true ∧
    ((deleteUserByIdHandler db cache idStr ce).1.status = 204 →
      cacheLookup (deleteUserByIdHandler db cache idStr ce).2.2.1 idStr = none ∧
      dbGetUser (deleteUserByIdHandler db cache idStr ce).2.1 idStr =
        Except.error GoError.noRows) ∧
    (∀ i u0, parseGoInt idStr = some i → ¬ i ≤ 0 →
      (pf.isNone && pl.isNone) = false → pf ≠ some "" → pl ≠ some "" →
      ce = none →
      db.find? (fun v => v.id == toString i) = some u0 →
      (updateUserByIdHandler db cache idStr pf pl ce).1.status = 200 ∧
      cacheLookup (updateUserByIdHandler db cache idStr pf pl ce).2.2.1
        (toString i) = none ∧
      dbGetUser (updateUserByIdHandler db cache idStr pf pl ce).2.1 (toString i) =
        Except.ok (applyPatch u0 pf pl) ∧
      getUserByIdDedupe
          ⟨(updateUserByIdHandler db cache idStr pf pl ce).2.2.1, []⟩ now
          (toString i)
          (dbGetUser (updateUserByIdHandler db cache idStr pf pl ce).2.1 (toString i))
          fev =
        some ⟨Except.ok (applyPatch u0 pf pl), "db",
          ⟨setUserCache (updateUserByIdHandler db cache idStr pf pl ce).2.2.1 now
              (toString i) (applyPatch u0 pf pl) 30, []⟩⟩) := by
  refine ⟨?_, ?_, ?_, ?_⟩
  · rcases ce with _ | e
    · unfold deleteUserByIdHandler dbDeleteUser
      cases hb : db.any (fun u => u.id == idStr) <;>
        simp [invalidatesAfterCommit, List.contains]
    · unfold deleteUserByIdHandler
      cases he : e.isCtxErr <;> simp [he, invalidatesAfterCommit]
  · unfold updateUserByIdHandler
    rcases hp : parseGoInt idStr with _ | i
    · simp [invalidatesAfterCommit]
    · simp only
      split_ifs with h1 h2 h3 h4
      · simp [invalidatesAfterCommit]
      · simp [invalidatesAfterCommit]
      · simp [invalidatesAfterCommit]
      · simp [invalidatesAfterCommit]
      · rcases ce with _ | e
        · unfold dbUpdateUser
          rcases hf : db.find? (fun u => u.id == toString i) with _ | u0
          · simp [hf, invalidatesAfterCommit]
          · have hid : u0.id = toString i := find?_id_eq db (toString i) u0 hf
            simp [hf, invalidatesAfterCommit, applyPatch, hid, List.contains]
        · cases he : e.isCtxErr <;> simp [he, invalidatesAfterCommit]
  · rcases ce with _ | e
    · unfold deleteUserByIdHandler dbDeleteUser
      cases hb : db.any (fun u => u.id == idStr)
      · intro h; simp at h
      · intro _
        refine ⟨cacheLookup_erase_self cache idStr, ?_⟩
        show dbGetUser (db.filter (fun u => u.id != idStr)) idStr =
          Except.error GoError.noRows
        unfold dbGetUser
        rw [dbFind_erase_none]
    · unfold deleteUserByIdHandler
      cases he : e.isCtxErr <;> simp [he]
  · intro i u0 hp hi hnn hne1 hne2 hce hf
    subst hce
    have hid : u0.id = toString i := find?_id_eq db (toString i) u0 hf
    have hu2 : (applyPatch u0 pf pl).id = u0.id := rfl
    have hred : updateUserByIdHandler db cache idStr pf pl none =
        (⟨200, encodeUser (applyPatch u0 pf pl), none⟩,
         (db.map (fun v => if v.id == toString i then applyPatch u0 pf pl else v)),
         invalidateUserCache cache (applyPatch u0 pf pl).id,
         [WriteAction.storeUpdate (toString i) true,
          WriteAction.cacheInvalidate (applyPatch u0 pf pl).id]) := by
      unfold updateUserByIdHandler
      simp only [hp, hi, if_false, hnn, Bool.false_eq_true, hne1, hne2]
      unfold dbUpdateUser
      simp [hf]
    rw [hred]
    have hcl : cacheLookup (invalidateUserCache cache (applyPatch u0 pf pl).id)
        (toString i) = none := by
      rw [hu2, hid]
      exact cacheLookup_erase_self cache (toString i)
    have hdb : dbGetUser
        (db.map (fun v => if v.id == toString i then applyPatch u0 pf pl else v))
        (toString i) = Except.ok (applyPatch u0 pf pl) := by
      unfold dbGetUser
      rw [dbUpdate_find db (toString i) (applyPatch u0 pf pl) (hu2.trans hid) u0 hf]
    refine ⟨rfl, hcl, hdb, ?_⟩
    have hmiss := getUserFromCache_absent
      (invalidateUserCache cache (applyPatch u0 pf pl).id) now (toString i) hcl
    have hdel := inflightDelete_insert [] (toString i) Chan.new rfl
    rw [hdb]
    simp [getUserByIdDedupe, hmiss, inflightLookup, hdel]

/-- Witness for C6: updating user 1's first name to Grace invalidates the
cache only after the committed UPDATE, and a subsequent get for id 1
returns the updated user from the database. -/
theorem C6_witness :
    (updateUserByIdHandler [adaUser] [("1", { user := adaUser, expiresAt := 100 })]
        "1" (some "Grace") none none).1.status = 200 ∧
    cacheLookup (updateUserByIdHandler [adaUser]
        [("1", { user := adaUser, expiresAt := 100 })]
        "1" (some "Grace") none none).2.2.1 (toString (1 : Int)) = none := by
  have h := (C6_commit_then_invalidate [adaUser]
    [("1", { user := adaUser, expiresAt := 100 })] "1" (some "Grace") none none 0
    FollowerEvent.recv).2.2.2 1 adaUser (by decide) (by decide) (by decide)
    (by decide) (by decide) rfl (by decide)
  exact ⟨h.1, h.2.1⟩

theorem namesUnique_append (db : Db) (u : User)
    (h1 : namesUnique db = true)
    (h2 : ∀ v ∈ db, ¬(v.firstName = u.firstName ∧ v.lastName = u.lastName)) :
    namesUnique (db ++ [u]) = true := by
  induction db with
  | nil => simp [namesUnique]
  | cons w rest ih =>
    simp only [namesUnique, Bool.and_eq_true, Bool.not_eq_true'] at h1
    have hw := h2 w (List.mem_cons_self w rest)
    have h2r : ∀ v ∈ rest, ¬(v.firstName = u.firstName ∧ v.lastName = u.lastName) :=
      fun v hv => h2 v (List.mem_cons_of_mem w hv)
    have ihr := ih h1.2 h2r
    simp only [List.cons_append, namesUnique, Bool.and_eq_true, Bool.not_eq_true']
    refine ⟨?_, ihr⟩
    rw [List.append_eq, List.any_append]
    simp only [h1.1, Bool.false_or, List.any_cons, List.any_nil, Bool.or_false]
    by_cases hfn : u.firstName = w.firstName
    · by_cases hln : u.lastName = w.lastName
      · exact absurd ⟨hfn.symm, hln.symm⟩ hw
      · simp [hln]
    · simp [hfn]

/-- Claim C10: the users table maintains the invariant that no two rows
share the same (first_name, last_name) pair, enforced by the UNIQUE
constraint created in initSchema, so createUser for a firstName/lastName
combination that already exists returns an error — surfaced by
createUserHandler as 500 — and leaves the table unchanged. -/
theorem C10_unique_name_pairs (db : Db) (nextId now : Nat) (fn ln : String) :
    (namesUnique db = true →
      namesUnique (dbCreateUser db nextId now fn ln).2.1 = true) ∧
    (db.any (fun u => u.firstName == fn && u.lastName == ln) = true →
      dbCreateUser db nextId now fn ln =
        (Except.error GoError.uniqueViolation, db, nextId)) ∧
    (fn ≠ "" → ln ≠ "" →
      db.any (fun u => u.firstName == fn && u.lastName == ln) = true →
      createUserHandler db nextId now fn ln =
        (⟨500, "failed to create user", none⟩, db, nextId)) := by
  refine ⟨?_, ?_, ?_⟩
  · intro h1
    cases hdup : db.any (fun u => u.firstName == fn && u.lastName == ln) with
    | true => simpa [dbCreateUser, hdup] using h1
    | false =>
      have hforall : ∀ v ∈ db, ¬(v.firstName = fn ∧ v.lastName = ln) := by
        intro v hv hc
        have hx : db.any (fun u => u.firstName == fn && u.lastName == ln) = true :=
          List.any_eq_true.mpr ⟨v, hv, by simp [hc.1, hc.2]⟩
        rw [hx] at hdup
        exact Bool.noConfusion hdup
      simp only [dbCreateUser, hdup, Bool.false_eq_true, if_false]
      exact namesUnique_append db _ h1 hforall
  · intro hdup
    simp [dbCreateUser, hdup]
  · intro hfn hln hdup
    simp [createUserHandler, hfn, hln, dbCreateUser, hdup, GoError.isCtxErr]

/-- Witness for C10: inserting the already-present pair (Ada, Lovelace)
leaves the table unchanged and is answered 500. -/
theorem C10_witness :
    createUserHandler [adaUser] 2 7 "Ada" "Lovelace" =
      (⟨500, "failed to create user", none⟩, [adaUser], 2) :=
  (C10_unique_name_pairs [adaUser] 2 7 "Ada" "Lovelace").2.2
    (by decide) (by decide) (by decide)

/-- Witness for C8 at a concrete race: a store attempt that succeeds first
wins with provenance db and cancellation signaled. -/
theorem C8_witness :
    racingGetUserByIdHandler [RaceEvent.res "db" adaUser none] =
      some ⟨200, encodeUser adaUser, some "db", true⟩ :=
  C8_racing_first_success_wins.1 "db" adaUser []
